import Mathlib

/-!
Verification development for the CLT-Land-Map parcel search-and-storage
subsystem.  The definitions below are a shallow embedding of the two core
modules, `src/data_import.py` (feature normalizer and ingestion pipeline)
and `src/database.py` (storage layer and criteria-to-query translation).

Modelling conventions:
* Python/JSON scalar values that flow through property bags and table
  columns are modelled by `Value` (`vNull` plays both JSON null and Python
  None; a key that is absent from a bag is a missing `List.lookup` entry).
* Python truthiness is `truthy`.
* Code that can raise an exception which is caught by a surrounding
  handler is modelled with `Except Unit` (the caught exception carries no
  information that the program uses).
* Python floats are modelled as exact rationals for the data values and as
  exact reals for the square-root based perimeter computation; `int(x)`
  is truncation toward zero (`pyTrunc`).
* Timestamps (`CURRENT_TIMESTAMP`) are modelled by a natural number clock
  supplied to each write.
-/

/-- A Python/JSON scalar value as it appears in feature property bags and
in database columns.  `vNull` models both JSON `null` and Python `None`
(and SQL `NULL` when stored in a column). -/
inductive Value where
  | vNull : Value
  | vStr (s : String) : Value
  | vNum (q : ℚ) : Value
deriving DecidableEq, Repr

/-- A feature property bag: an association list of key/value pairs.
A key that is absent from the list models a key absent from the dict;
a key mapped to `vNull` models a key present with value `None`. -/
abbrev Bag := List (String × Value)

/-- Python truthiness of a scalar value: `None` is falsy, a string is
truthy iff nonempty, a number is truthy iff nonzero. -/
def truthy : Value → Bool
  | .vNull => false
  | .vStr s => s ≠ ""
  | .vNum q => q ≠ 0

/-- `properties.get(k, default)`: the bound value when the key is present
(even if that value is `None`), otherwise the default. -/
def pyGet (b : Bag) (k : String) (default : Value) : Value :=
  (List.lookup k b).getD default

/-- `properties.get(k)` with the implicit `None` default. -/
def pyGetN (b : Bag) (k : String) : Value :=
  pyGet b k .vNull

/-- Python `a or b`: `a` when `a` is truthy, otherwise `b`. -/
def pyOr (a b : Value) : Value :=
  if truthy a then a else b

/-- The surrounding-whitespace trim of Python `str.strip()`, done on the
character list. -/
def trimStr (s : String) : String :=
  String.mk (((s.toList.dropWhile Char.isWhitespace).reverse.dropWhile Char.isWhitespace).reverse)

/-- Python `v.strip()`: succeeds (trimming surrounding whitespace) only on
a string; on `None` or a number it raises `AttributeError`. -/
def pyStrip : Value → Except Unit String
  | .vStr s => .ok (trimStr s)
  | _ => .error ()

/-- Character-wise uppercasing of a string (Python `str.upper` on the
ASCII zoning codes this program handles). -/
def upperStr (s : String) : String :=
  String.mk (s.toList.map Char.toUpper)

/-- Python `v.upper()`: succeeds only on a string; on `None` or a number
it raises `AttributeError`. -/
def pyUpper : Value → Except Unit String
  | .vStr s => .ok (upperStr s)
  | _ => .error ()

/-- Whether the first character list starts the second. -/
def listStarts : List Char → List Char → Bool
  | [], _ => true
  | _ :: _, [] => false
  | a :: as, b :: bs => a = b && listStarts as bs

/-- Whether the first character list occurs contiguously in the second. -/
def listContains (needle : List Char) : List Char → Bool
  | [] => listStarts needle []
  | h :: rest => listStarts needle (h :: rest) || listContains needle rest

/-- Python `needle in hay` for strings: substring containment. -/
def pyIn (needle hay : String) : Bool :=
  listContains needle.toList hay.toList

/-- The digits of a decimal numeral, as a natural number (`none` when the
list is empty or contains a non-digit). -/
def digitsToNat (l : List Char) : Option ℕ :=
  if l ≠ [] ∧ l.all Char.isDigit then
    some (l.foldl (fun n c => 10 * n + (c.toNat - 48)) 0)
  else none

/-- Python `float(s)` on a string, restricted to plain decimal numerals
(optional sign, digits, optional fractional part); anything else fails
with `ValueError`. -/
def parseDecimal (s : String) : Option ℚ :=
  let t := (trimStr s).toList
  let (sign, u) : ℚ × List Char :=
    match t with
    | '-' :: rest => (-1, rest)
    | '+' :: rest => (1, rest)
    | _ => (1, t)
  match u.splitOn '.' with
  | [w] => (digitsToNat w).map (fun n => sign * n)
  | [w, f] =>
    if w.all Char.isDigit ∧ f.all Char.isDigit ∧ (w ≠ [] ∨ f ≠ []) then
      some (sign * ((digitsToNat (w ++ f)).getD 0) / (10 : ℚ) ^ f.length)
    else none
  | _ => none

/-- `ArcGISDataImporter._parse_acres`: `None` input yields `None`;
otherwise `float(value)` is attempted and `ValueError`/`TypeError` is
caught, yielding `None`. -/
def parse_acres : Value → Option ℚ
  | .vNull => none
  | .vNum q => some q
  | .vStr s => parseDecimal s

/-- `ArcGISDataImporter._combine_owner_names`: strips and concatenates the
`Owner_FirstName`/`Owner_LastName` fields.  `.strip()` on a present-but-
null (or numeric) value raises, which the per-feature handler catches. -/
def combine_owner_names (props : Bag) : Except Unit String :=
  match pyStrip (pyGet props "Owner_FirstName" (.vStr "")) with
  | .error e => .error e
  | .ok fn =>
    match pyStrip (pyGet props "Owner_LastName" (.vStr "")) with
    | .error e => .error e
    | .ok ln =>
      if fn ≠ "" ∧ ln ≠ "" then .ok (fn ++ " " ++ ln)
      else if fn ≠ "" then .ok fn
      else if ln ≠ "" then .ok ln
      else .ok ""

/-- The substring classification chain shared by the `any(code in zoning)`
tests of `_determine_land_use` (applied to whatever string the local
variable `zoning` ended up holding). -/
def classify_zoning (zoning : String) : String :=
  if pyIn "R-" zoning || pyIn "RES" zoning then "Residential"
  else if pyIn "C-" zoning || pyIn "COM" zoning then "Commercial"
  else if pyIn "I-" zoning || pyIn "IND" zoning then "Industrial"
  else if pyIn "AG" zoning || pyIn "AGR" zoning then "Agricultural"
  else "Mixed Use"

/-- `ArcGISDataImporter._determine_land_use`: the source line is
`zoning = properties.get("ZoneDes") or properties.get("zoning", "").upper()`,
so `.upper()` is applied only on the fallback branch; a truthy `ZoneDes`
value is used as-is.  A non-string value reaching `.upper()` or the
substring tests raises, which the per-feature handler catches. -/
def determine_land_use (props : Bag) : Except Unit String :=
  let z1 := pyGetN props "ZoneDes"
  if truthy z1 then
    match z1 with
    | .vStr s => .ok (classify_zoning s)
    | _ => .error ()
  else
    match pyUpper (pyGet props "zoning" (.vStr "")) with
    | .ok s => .ok (classify_zoning s)
    | .error e => .error e

/-- A GeoJSON geometry as consumed by the importer: the code only inspects
`geometry["type"]` and, for polygons, `geometry["coordinates"][0]`, so any
non-polygon geometry is represented just by its type tag. -/
inductive Geom where
  | polygon (rings : List (List (ℚ × ℚ))) : Geom
  | nonPolygon (typ : String) : Geom
deriving DecidableEq, Repr

/-- Python `int(x)`: truncation toward zero. -/
noncomputable def pyTrunc (x : ℝ) : ℤ :=
  if 0 ≤ x then ⌊x⌋ else ⌈x⌉

/-- The Euclidean distance `(dx**2 + dy**2)**0.5` between two vertices, in
the native degree coordinates of the geometry (floats modelled as exact
reals). -/
noncomputable def dist2d (p q : ℚ × ℚ) : ℝ :=
  Real.sqrt (((q.1 : ℝ) - (p.1 : ℝ)) ^ 2 + ((q.2 : ℝ) - (p.2 : ℝ)) ^ 2)

/-- The `for i in range(len(coords) - 1)` perimeter loop of
`_calculate_road_frontage`. -/
noncomputable def perimLoop (coords : List (ℚ × ℚ)) : ℝ :=
  (List.range (coords.length - 1)).foldl
    (fun acc i => acc + dist2d (coords.getD i (0, 0)) (coords.getD (i + 1) (0, 0))) 0

/-- `ArcGISDataImporter._calculate_road_frontage`: for a polygon, the
perimeter of the first ring scaled by 111000 and truncated to an integer;
accessing `coordinates[0]` of an empty ring list raises `IndexError`,
which the surrounding handler turns into `None`; any other geometry type
falls through to `None`. -/
noncomputable def calculate_road_frontage : Geom → Option ℤ
  | .polygon [] => none
  | .polygon (ring :: _) => some (pyTrunc (perimLoop ring * 111000))
  | .nonPolygon _ => none

/-- `ArcGISDataImporter._determine_utilities`: fixed default set. -/
def determine_utilities (_props : Bag) : List String :=
  ["Water", "Sewer", "Electric"]

/-- One record of a fetched feature collection: property bag plus optional
geometry (`none` models an absent or null `geometry` member). -/
structure Feature where
  properties : Bag
  geometry : Option Geom
deriving DecidableEq

/-- The transient normalized parcel dict handed to the storage layer. -/
structure ParcelData where
  parcel_id : Value
  address : Value
  owner_name : String
  owner_address : Value
  acres : Option ℚ
  zoning_code : Value
  land_use : String
  road_frontage : Option ℤ
  slope_percent : Option ℚ
  utilities : List String
  geometry : Option Geom
deriving DecidableEq

/-- The body of the per-feature loop of
`ArcGISDataImporter.process_parcel_data`: skip a feature without geometry;
build the parcel dict (the dict-literal values are evaluated top to
bottom, so an exception from `_combine_owner_names` or
`_determine_land_use` aborts this feature and is caught by the
per-feature handler); finally the validity gate keeps the record only
when `parcel_data["parcel_id"]` is truthy (its geometry, already known
present, is a truthy dict). -/
noncomputable def process_feature (f : Feature) : Option ParcelData :=
  match f.geometry with
  | none => none
  | some geom =>
    match combine_owner_names f.properties with
    | .error _ => none
    | .ok owner =>
      match determine_land_use f.properties with
      | .error _ => none
      | .ok lu =>
        let pd : ParcelData :=
          { parcel_id := pyOr (pyGetN f.properties "PID") (pyGetN f.properties "parcel_id")
            address := pyOr (pyGetN f.properties "Mailing_Address") (pyGetN f.properties "address")
            owner_name := owner
            owner_address := pyGetN f.properties "Mailing_Address"
            acres := parse_acres (pyOr (pyGetN f.properties "Total_Acreage") (pyGetN f.properties "acres"))
            zoning_code := pyOr (pyGetN f.properties "ZoneDes") (pyGetN f.properties "zoning")
            land_use := lu
            road_frontage := calculate_road_frontage geom
            slope_percent := none
            utilities := determine_utilities f.properties
            geometry := some geom }
        if truthy pd.parcel_id then some pd else none

/-- `ArcGISDataImporter.process_parcel_data`: the argument is the
`features` member of the fetched collection when present (`none` models a
response that is falsy or lacks a `features` key, which yields no
records). -/
noncomputable def process_parcel_data : Option (List Feature) → List ParcelData
  | none => []
  | some feats => feats.filterMap process_feature

/-- A row of the `parcels` table (the `SERIAL` surrogate key is not
modelled; `parcel_id` is the unique business key).  String-typed columns
hold a `Value` whose `vNull` is SQL `NULL`. -/
structure ParcelRecord where
  parcel_id : Value
  address : Value
  owner_name : Value
  owner_address : Value
  acres : Option ℚ
  zoning_code : Value
  land_use : Value
  road_frontage : Option ℤ
  slope_percent : Option ℚ
  utilities : List String
  geometry : Option Geom
  created_at : ℕ
  updated_at : ℕ
deriving DecidableEq

/-- The freshly inserted row of `DatabaseManager.insert_parcel_data`
(the non-conflict branch): both timestamp columns default to the current
time. -/
def mkRecord (t : ℕ) (d : ParcelData) : ParcelRecord :=
  { parcel_id := d.parcel_id
    address := d.address
    owner_name := .vStr d.owner_name
    owner_address := d.owner_address
    acres := d.acres
    zoning_code := d.zoning_code
    land_use := .vStr d.land_use
    road_frontage := d.road_frontage
    slope_percent := d.slope_percent
    utilities := d.utilities
    geometry := d.geometry
    created_at := t
    updated_at := t }

/-- The `ON CONFLICT (parcel_id) DO UPDATE SET` branch of
`DatabaseManager.insert_parcel_data`: every mutable column is overwritten
from the excluded row and `updated_at` is bumped to the current time;
`parcel_id` and `created_at` are untouched. -/
def updateRecord (t : ℕ) (d : ParcelData) (r : ParcelRecord) : ParcelRecord :=
  { r with
    address := d.address
    owner_name := .vStr d.owner_name
    owner_address := d.owner_address
    acres := d.acres
    zoning_code := d.zoning_code
    land_use := .vStr d.land_use
    road_frontage := d.road_frontage
    slope_percent := d.slope_percent
    utilities := d.utilities
    geometry := d.geometry
    updated_at := t }

/-- `DatabaseManager.insert_parcel_data`: upsert keyed on `parcel_id` at
clock time `t`. -/
def insert_parcel_data (t : ℕ) (d : ParcelData) (tbl : List ParcelRecord) : List ParcelRecord :=
  if tbl.any (fun r => r.parcel_id = d.parcel_id) then
    tbl.map (fun r => if r.parcel_id = d.parcel_id then updateRecord t d r else r)
  else
    tbl ++ [mkRecord t d]

/-- The loosely-typed search-criteria object of
`DatabaseManager.search_parcels` (each key optional). -/
structure Criteria where
  min_acres : Option ℚ
  max_acres : Option ℚ
  zoning_type : Option String
  vacant_only : Bool
  road_frontage : Option ℚ
  slope_range : Option (List ℚ)

/-- An atomic SQL comparison appearing in the generated WHERE text. -/
inductive Atom where
  | acresGe (q : ℚ)
  | acresLe (q : ℚ)
  | zoningEq (s : String)
  | ownerIsNull
  | ownerEmpty
  | roadGe (q : ℚ)
  | slopeBetween (lo hi : ℚ)
deriving DecidableEq

/-- One entry of the `where_conditions` list.  All entries are single
comparisons except the vacant-only entry, which is the literal text
`owner_name IS NULL OR owner_name = ...` (empty-string literal) — an unparenthesized
disjunction. -/
inductive Fragment where
  | atom (a : Atom)
  | orFrag (a b : Atom)
deriving DecidableEq

/-- The `if criteria.get("min_acres")` block appending `acres >= %s`. -/
def min_frag : Option ℚ → List Fragment
  | some q => if q ≠ 0 then [.atom (.acresGe q)] else []
  | none => []

/-- The `if criteria.get("max_acres")` block appending `acres <= %s`. -/
def max_frag : Option ℚ → List Fragment
  | some q => if q ≠ 0 then [.atom (.acresLe q)] else []
  | none => []

/-- The `if criteria.get("zoning_type")` block appending `zoning_code = %s`. -/
def zoning_frag : Option String → List Fragment
  | some s => if s ≠ "" then [.atom (.zoningEq s)] else []
  | none => []

/-- The `if criteria.get("vacant_only")` block appending the vacant disjunction text. -/
def vacant_frag : Bool → List Fragment
  | true => [.orFrag .ownerIsNull .ownerEmpty]
  | false => []

/-- The `if criteria.get("road_frontage")` block appending `road_frontage >= %s`. -/
def road_frag : Option ℚ → List Fragment
  | some q => if q ≠ 0 then [.atom (.roadGe q)] else []
  | none => []

/-- The `if criteria.get("slope_range")` block, with the length-two check
guarding the BETWEEN clause. -/
def slope_frag : Option (List ℚ) → List Fragment
  | some [lo, hi] => [.atom (.slopeBetween lo hi)]
  | _ => []

/-- The `where_conditions` list built by `DatabaseManager.search_parcels`,
in source order. -/
def where_conditions (c : Criteria) : List Fragment :=
  min_frag c.min_acres ++ max_frag c.max_acres ++ zoning_frag c.zoning_type
    ++ vacant_frag c.vacant_only ++ road_frag c.road_frontage ++ slope_frag c.slope_range

/-- SQL evaluation of one atomic comparison against a row; any comparison
involving a `NULL` operand is unknown, hence does not match. -/
def evalAtom (a : Atom) (r : ParcelRecord) : Bool :=
  match a with
  | .acresGe q => match r.acres with | some x => decide (q ≤ x) | none => false
  | .acresLe q => match r.acres with | some x => decide (x ≤ q) | none => false
  | .zoningEq s => match r.zoning_code with | .vStr t => decide (t = s) | _ => false
  | .ownerIsNull => decide (r.owner_name = .vNull)
  | .ownerEmpty => decide (r.owner_name = .vStr "")
  | .roadGe q => match r.road_frontage with | some x => decide (q ≤ (x : ℚ)) | none => false
  | .slopeBetween lo hi =>
    match r.slope_percent with | some s => decide (lo ≤ s ∧ s ≤ hi) | none => false

/-- The SQL parse of the `" AND ".join(where_conditions)` text: `AND` binds
tighter than `OR`, so the flat token string splits at each bare `OR` into
disjuncts that are conjunctions of atoms.  `orGroups fs acc` accumulates
the atoms of the disjunct currently being built. -/
def orGroups : List Fragment → List Atom → List (List Atom)
  | [], acc => [acc]
  | .atom a :: rest, acc => orGroups rest (acc ++ [a])
  | .orFrag a b :: rest, acc => (acc ++ [a]) :: orGroups rest [b]

/-- Truth of the generated WHERE clause on a row: the empty condition list
becomes the text `1=1` (always true); otherwise the clause holds iff some
disjunct has all of its atoms true. -/
def evalWhere (fs : List Fragment) (r : ParcelRecord) : Bool :=
  match fs with
  | [] => true
  | _ => (orGroups fs []).any (fun g => g.all (fun a => evalAtom a r))

/-- The `ORDER BY acres DESC` comparison (PostgreSQL sorts `NULL` first
under `DESC`): `acres_desc a b` says `a` may precede `b`. -/
def acres_desc (a b : ParcelRecord) : Bool :=
  match a.acres, b.acres with
  | none, _ => true
  | some _, none => false
  | some x, some y => decide (y ≤ x)

/-- `DatabaseManager.search_parcels`: filter by the generated WHERE
clause, order by acreage descending, cap at 100 rows. -/
def search_parcels (c : Criteria) (tbl : List ParcelRecord) : List ParcelRecord :=
  (((tbl.filter (fun r => evalWhere (where_conditions c) r)).mergeSort acres_desc).take 100)

/-- A row of the `zoning_regulations` table (only the two columns the
ingestion populates). -/
structure ZoningRecord where
  zone_code : Value
  zone_description : Value
deriving DecidableEq

/-- The `INSERT ... ON CONFLICT (zone_code) DO UPDATE SET zone_description`
statement issued by `_import_zoning_data`. -/
def upsert_zoning (z : ZoningRecord) (tbl : List ZoningRecord) : List ZoningRecord :=
  if tbl.any (fun r => r.zone_code = z.zone_code) then
    tbl.map (fun r => if r.zone_code = z.zone_code then
      { r with zone_description := z.zone_description } else r)
  else
    tbl ++ [z]

/-- `ArcGISDataImporter._import_zoning_data`: upsert one
(zone_code, zone_description) pair per feature whose `ZoneDes` is truthy;
failed upserts and per-feature errors do not stop the loop. -/
def import_zoning_data (data : Option (List Feature)) (ztbl : List ZoningRecord) : List ZoningRecord :=
  match data with
  | none => ztbl
  | some feats =>
    feats.foldl (fun acc f =>
      let zc := pyGetN f.properties "ZoneDes"
      if truthy zc then upsert_zoning ⟨zc, pyGetN f.properties "ZoneDesc"⟩ acc else acc) ztbl

/-- The persistent store as seen by the importer: the two tables the
pipeline writes. -/
structure DB where
  parcels : List ParcelRecord
  zoning : List ZoningRecord
deriving DecidableEq

/-- Pass 1 of `import_all_data`: fetch the parcel-ownership layer
(`none` models a failed fetch, whose result is falsy and skips the block),
normalize and upsert each surviving record. -/
noncomputable def parcel_pass (t : ℕ) (fetched : Option (Option (List Feature))) (db : DB) : DB :=
  match fetched with
  | none => db
  | some data =>
    let tbl := (process_parcel_data data).foldl (fun tbl p => insert_parcel_data t p tbl) db.parcels
    { db with parcels := tbl }

/-- Pass 2 of `import_all_data`: the vacant-land layer; each processed
record has `owner_name` forced to the empty string before the upsert. -/
noncomputable def vacant_pass (t : ℕ) (fetched : Option (Option (List Feature))) (db : DB) : DB :=
  match fetched with
  | none => db
  | some data =>
    let tbl := (process_parcel_data data).foldl
      (fun tbl p => insert_parcel_data t { p with owner_name := "" } tbl) db.parcels
    { db with parcels := tbl }

/-- Pass 3 of `import_all_data`: the zoning layer. -/
def zoning_pass (fetched : Option (Option (List Feature))) (db : DB) : DB :=
  match fetched with
  | none => db
  | some data => { db with zoning := import_zoning_data data db.zoning }

/-- `ArcGISDataImporter.import_all_data`: the three fetch-normalize-store
passes run strictly in sequence over the single-threaded store; every
error raised below this level is caught there (fetch errors become `none`,
per-feature errors drop the feature, storage errors surface as a boolean),
so the surrounding try block completes and returns `True`. -/
noncomputable def import_all_data (t : ℕ) (pf vf zf : Option (Option (List Feature)))
    (db : DB) : Bool × DB :=
  let db1 := parcel_pass t pf db
  let db2 := vacant_pass t vf db1
  let db3 := zoning_pass zf db2
  (true, db3)

/-- Claim-side resolver (from the wording of the schema-mapping design
note, as amended): the value of the first candidate key whose bound value
is truthy; when no candidate is truthy, the value of the last candidate
(Python `or` chains return their last operand). -/
def firstTruthy (b : Bag) : List String → Value
  | [] => .vNull
  | [k] => pyGetN b k
  | k :: ks => if truthy (pyGetN b k) then pyGetN b k else firstTruthy b ks

/-- Claim-side perimeter: the sum of Euclidean distances between
consecutive boundary vertices. -/
noncomputable def perimeter_spec (coords : List (ℚ × ℚ)) : ℝ :=
  ((coords.zip coords.tail).map (fun pq => dist2d pq.1 pq.2)).sum

/-- The criteria object with zero keys set. -/
def noCriteria : Criteria :=
  ⟨none, none, none, false, none, none⟩

/-- The property bag of the end-to-end ingestion scenario: one vacant-land
layer feature (keys as fetched from that layer, per the field mappings the
importer itself declares and the out_fields it requests). -/
def vacantLayerBag : Bag :=
  [("PID", .vStr "P001"), ("ACRES", .vNum (26 / 5)), ("ZONING", .vStr "R-3"),
   ("ADDRESS", .vStr "123 Main St")]

/-- A small polygon geometry for the end-to-end scenario. -/
def vacantLayerGeom : Geom :=
  .polygon [[(0, 0), (1, 0), (1, 1), (0, 0)]]

/-- The record the normalizer actually produces from `vacantLayerBag`:
only PID resolves; address, acres and zoning are lost because the code
consults `Mailing_Address`/`address`, `Total_Acreage`/`acres` and
`ZoneDes`/`zoning`, none of which occur in the vacant-land schema. -/
noncomputable def vacantLayerParcel : ParcelData :=
  { parcel_id := .vStr "P001"
    address := .vNull
    owner_name := ""
    owner_address := .vNull
    acres := none
    zoning_code := .vNull
    land_use := "Mixed Use"
    road_frontage := calculate_road_frontage vacantLayerGeom
    slope_percent := none
    utilities := ["Water", "Sewer", "Electric"]
    geometry := some vacantLayerGeom }

/-- A stored row that is vacant (empty owner name) with one acre. -/
def vacantRow : ParcelRecord :=
  { parcel_id := .vStr "X1"
    address := .vNull
    owner_name := .vStr ""
    owner_address := .vNull
    acres := some 1
    zoning_code := .vNull
    land_use := .vNull
    road_frontage := none
    slope_percent := none
    utilities := []
    geometry := none
    created_at := 0
    updated_at := 0 }

/-- The vacant row with fifty acres. -/
def vacantRow50 : ParcelRecord :=
  { vacantRow with acres := some 50 }

/-- The vacant row with two acres and a distinct owner. -/
def midRow : ParcelRecord :=
  { vacantRow with acres := some 2, owner_name := .vStr "A Person" }

/-- Criteria asking for at least five acres among vacant parcels. -/
def minVacantCriteria : Criteria :=
  ⟨some 5, none, none, true, none, none⟩

/-- Criteria asking for one to two acres among vacant parcels. -/
def rangeVacantCriteria : Criteria :=
  ⟨some 1, some 2, none, true, none, none⟩

/-- Criteria asking for one to two acres, vacancy not requested. -/
def rangeOnlyCriteria : Criteria :=
  ⟨some 1, some 2, none, false, none, none⟩

/-- Criteria searching by zoning code R-3 alone. -/
def zoningR3Criteria : Criteria :=
  ⟨none, none, some "R-3", false, none, none⟩

/-- First upsert payload for the overwrite scenario. -/
def firstPayload : ParcelData :=
  { parcel_id := .vStr "P1"
    address := .vNull
    owner_name := "A Owner"
    owner_address := .vNull
    acres := some 1
    zoning_code := .vStr "R-1"
    land_use := "Residential"
    road_frontage := none
    slope_percent := none
    utilities := []
    geometry := none }

/-- Second upsert payload for the overwrite scenario: same `parcel_id`,
every other attribute different. -/
def secondPayload : ParcelData :=
  { parcel_id := .vStr "P1"
    address := .vStr "9 Oak St"
    owner_name := "B Owner"
    owner_address := .vStr "Box 7"
    acres := some 2
    zoning_code := .vStr "C-1"
    land_use := "Commercial"
    road_frontage := some 30
    slope_percent := some 1
    utilities := ["Water"]
    geometry := some (.nonPolygon "Point") }

/-- A feature whose bag binds Owner_FirstName to null but carries a valid
parcel identifier and geometry. -/
def nullOwnerFeature : Feature :=
  ⟨[("Owner_FirstName", .vNull), ("PID", .vStr "P9")], some (.nonPolygon "Point")⟩

/-- The projection selecting the single comparison of an atomic
condition entry. -/
def fragAtom : Fragment → Option Atom
  | .atom a => some a
  | .orFrag _ _ => none

/-- The ORDER BY comparison is transitive. -/
theorem acres_desc_trans (a b c : ParcelRecord) :
    acres_desc a b = true → acres_desc b c = true → acres_desc a c = true := by
  unfold acres_desc
  cases ha : a.acres <;> cases hb : b.acres <;> cases hc : c.acres <;> simp
  intro h1 h2
  exact le_trans h2 h1

/-- The ORDER BY comparison is total. -/
theorem acres_desc_total (a b : ParcelRecord) :
    (acres_desc a b || acres_desc b a) = true := by
  unfold acres_desc
  cases ha : a.acres <;> cases hb : b.acres <;> simp
  exact le_total _ _

/-- A row of a search result is a table row satisfying the generated
WHERE clause. -/
theorem mem_search_parcels {c : Criteria} {tbl : List ParcelRecord} {r : ParcelRecord}
    (h : r ∈ search_parcels c tbl) :
    r ∈ tbl ∧ evalWhere (where_conditions c) r = true := by
  unfold search_parcels at h
  have h1 := (List.take_sublist _ _).subset h
  rw [List.mem_mergeSort] at h1
  exact List.mem_filter.mp h1

/-- When every fragment is a single comparison, the clause has exactly one
disjunct holding all the atoms. -/
theorem orGroups_all_atoms (fs : List Fragment) (acc : List Atom)
    (h : ∀ f ∈ fs, ∃ a, f = .atom a) :
    orGroups fs acc = [acc ++ fs.filterMap fragAtom] := by
  induction fs generalizing acc with
  | nil => simp [orGroups]
  | cons f rest ih =>
    obtain ⟨a, rfl⟩ := h f (by simp)
    have := ih (acc ++ [a]) (fun g hg => h g (by simp [hg]))
    simp [orGroups, fragAtom, this]

/-- When every fragment is a single comparison, a matching row satisfies
each of them. -/
theorem evalWhere_atoms_true (fs : List Fragment) (r : ParcelRecord)
    (hall : ∀ f ∈ fs, ∃ a, f = .atom a) (hw : evalWhere fs r = true)
    (a : Atom) (ha : Fragment.atom a ∈ fs) : evalAtom a r = true := by
  cases fs with
  | nil => simp at ha
  | cons f rest =>
    unfold evalWhere at hw
    rw [orGroups_all_atoms _ _ hall] at hw
    simp only [List.any_cons, List.any_nil, Bool.or_false, List.nil_append,
      List.all_eq_true] at hw
    exact hw a (List.mem_filterMap.mpr ⟨Fragment.atom a, ha, rfl⟩)

/-- The minimum-acreage block only ever appends a single comparison. -/
theorem min_frag_atoms (v : Option ℚ) (f : Fragment) (hf : f ∈ min_frag v) :
    ∃ a, f = .atom a := by
  cases v with
  | none => simp [min_frag] at hf
  | some q =>
    by_cases hq : q = 0
    · simp [min_frag, hq] at hf
    · simp [min_frag, hq] at hf
      exact ⟨_, hf⟩

/-- The maximum-acreage block only ever appends a single comparison. -/
theorem max_frag_atoms (v : Option ℚ) (f : Fragment) (hf : f ∈ max_frag v) :
    ∃ a, f = .atom a := by
  cases v with
  | none => simp [max_frag] at hf
  | some q =>
    by_cases hq : q = 0
    · simp [max_frag, hq] at hf
    · simp [max_frag, hq] at hf
      exact ⟨_, hf⟩

/-- The zoning block only ever appends a single comparison. -/
theorem zoning_frag_atoms (v : Option String) (f : Fragment) (hf : f ∈ zoning_frag v) :
    ∃ a, f = .atom a := by
  cases v with
  | none => simp [zoning_frag] at hf
  | some s =>
    by_cases hs : s = ""
    · simp [zoning_frag, hs] at hf
    · simp [zoning_frag, hs] at hf
      exact ⟨_, hf⟩

/-- The road-frontage block only ever appends a single comparison. -/
theorem road_frag_atoms (v : Option ℚ) (f : Fragment) (hf : f ∈ road_frag v) :
    ∃ a, f = .atom a := by
  cases v with
  | none => simp [road_frag] at hf
  | some q =>
    by_cases hq : q = 0
    · simp [road_frag, hq] at hf
    · simp [road_frag, hq] at hf
      exact ⟨_, hf⟩

/-- The slope block only ever appends a single comparison. -/
theorem slope_frag_atoms (v : Option (List ℚ)) (f : Fragment) (hf : f ∈ slope_frag v) :
    ∃ a, f = .atom a := by
  match v with
  | none => simp [slope_frag] at hf
  | some [] => simp [slope_frag] at hf
  | some [_] => simp [slope_frag] at hf
  | some [lo, hi] =>
    simp [slope_frag] at hf
    exact ⟨_, hf⟩
  | some (_ :: _ :: _ :: _) => simp [slope_frag] at hf

/-- Without the vacant-only key, the generated condition list is made of
single comparisons only. -/
theorem where_conditions_atoms (c : Criteria) (h : c.vacant_only = false)
    (f : Fragment) (hf : f ∈ where_conditions c) : ∃ a, f = .atom a := by
  simp only [where_conditions, h, vacant_frag, List.append_nil, List.nil_append,
    List.mem_append] at hf
  rcases hf with ((((h1 | h2) | h3) | h4) | h5)
  · exact min_frag_atoms _ _ h1
  · exact max_frag_atoms _ _ h2
  · exact zoning_frag_atoms _ _ h3
  · exact road_frag_atoms _ _ h4
  · exact slope_frag_atoms _ _ h5

/-- A row passing the minimum-acres comparison has non-null acres at or
above the bound. -/
theorem evalAtom_acresGe (q : ℚ) (r : ParcelRecord)
    (h : evalAtom (.acresGe q) r = true) : ∃ a, r.acres = some a ∧ q ≤ a := by
  unfold evalAtom at h
  cases hr : r.acres with
  | none => rw [hr] at h; simp at h
  | some x => rw [hr] at h; simp at h; exact ⟨x, rfl, h⟩

/-- A row passing the maximum-acres comparison has non-null acres at or
below the bound. -/
theorem evalAtom_acresLe (q : ℚ) (r : ParcelRecord)
    (h : evalAtom (.acresLe q) r = true) : ∃ a, r.acres = some a ∧ a ≤ q := by
  unfold evalAtom at h
  cases hr : r.acres with
  | none => rw [hr] at h; simp at h
  | some x => rw [hr] at h; simp at h; exact ⟨x, rfl, h⟩

/-- Unrolling the indexed perimeter loop one vertex at a time. -/
theorem perimLoop_aux (l : List (ℚ × ℚ)) :
    ∀ (a : ℚ × ℚ) (c : ℝ),
      (List.range ((a :: l).length - 1)).foldl
        (fun acc i => acc + dist2d ((a :: l).getD i (0, 0)) ((a :: l).getD (i + 1) (0, 0))) c
      = c + perimeter_spec (a :: l) := by
  induction l with
  | nil => intro a c; simp [perimeter_spec]
  | cons b l ih =>
    intro a c
    have hlen : (a :: b :: l).length - 1 = l.length + 1 := by simp
    rw [hlen, List.range_succ_eq_map, List.foldl_cons, List.foldl_map]
    simp only [List.getD_cons_succ, List.getD_cons_zero]
    have := ih b (c + dist2d a b)
    simp only [List.length_cons, Nat.add_sub_cancel, List.getD_cons_succ] at this
    rw [this]
    simp only [perimeter_spec, List.zip_cons_cons, List.tail_cons, List.map_cons, List.sum_cons]
    ring

/-- The perimeter loop computes the sum of consecutive-vertex
distances. -/
theorem perimLoop_eq_spec (coords : List (ℚ × ℚ)) :
    perimLoop coords = perimeter_spec coords := by
  cases coords with
  | nil => simp [perimLoop, perimeter_spec]
  | cons a l =>
    unfold perimLoop
    rw [perimLoop_aux l a 0, zero_add]

/-- A perimeter is nonnegative. -/
theorem perimeter_spec_nonneg (coords : List (ℚ × ℚ)) : 0 ≤ perimeter_spec coords := by
  apply List.sum_nonneg
  intro x hx
  simp only [perimeter_spec, List.mem_map] at hx
  obtain ⟨pq, _, rfl⟩ := hx
  exact Real.sqrt_nonneg _

/-- Claim C9: for every feature geometry, a polygon yields the sum of
Euclidean distances between consecutive boundary vertices of its first
ring (the perimeter, in native degree coordinates) scaled by the fixed
constant 111000 and truncated to an integer; any other geometry type, and
any computation error (an empty ring list), yields null, and the embedded
computation is total, so it never raises. -/
theorem road_frontage_is_truncated_scaled_perimeter :
    (∀ (ring : List (ℚ × ℚ)) (rest : List (List (ℚ × ℚ))),
        calculate_road_frontage (.polygon (ring :: rest))
          = some ⌊perimeter_spec ring * 111000⌋)
    ∧ (∀ typ : String, calculate_road_frontage (.nonPolygon typ) = none)
    ∧ calculate_road_frontage (.polygon []) = none := by
  refine ⟨?_, fun typ => rfl, rfl⟩
  intro ring rest
  have hnn : (0 : ℝ) ≤ perimeter_spec ring * 111000 :=
    mul_nonneg (perimeter_spec_nonneg ring) (by norm_num)
  have h0 : calculate_road_frontage (.polygon (ring :: rest))
      = some (pyTrunc (perimLoop ring * 111000)) := rfl
  rw [h0, perimLoop_eq_spec]
  unfold pyTrunc
  rw [if_pos hnn]

/-- Claim C3 counterexample: on the bag binding ZoneDes to the lowercase
text r-3, the code classifies Mixed Use, while uppercasing the zoning
code text first (as the claim states) would give R-3 and hence
Residential. -/
theorem lowercase_zonedes_is_not_uppercased :
    determine_land_use [("ZoneDes", .vStr "r-3")] = .ok "Mixed Use"
    ∧ upperStr "r-3" = "R-3"
    ∧ classify_zoning "R-3" = "Residential"
    ∧ "Mixed Use" ≠ "Residential" := by
  refine ⟨rfl, rfl, rfl, by decide⟩

/-- Claim C3 (amended): land-use inference uppercases the zoning text only
on the fallback branch (a truthy ZoneDes value is classified as-is,
without uppercasing); classification tests substrings in the precedence
order Residential, Commercial, Industrial, Agricultural, Mixed Use, the
first match winning, and the five sample codes classify as the claim
lists. -/
theorem determine_land_use_characterization :
    (∀ (props : Bag) (s : String), pyGetN props "ZoneDes" = .vStr s → s ≠ "" →
        determine_land_use props = .ok (classify_zoning s))
    ∧ (∀ props : Bag, truthy (pyGetN props "ZoneDes") = false →
        ∀ s : String, pyGet props "zoning" (.vStr "") = .vStr s →
          determine_land_use props = .ok (classify_zoning (upperStr s)))
    ∧ (∀ z : String, (pyIn "R-" z || pyIn "RES" z) = true →
        classify_zoning z = "Residential")
    ∧ (∀ z : String, (pyIn "R-" z || pyIn "RES" z) = false →
        (pyIn "C-" z || pyIn "COM" z) = true → classify_zoning z = "Commercial")
    ∧ (∀ z : String, (pyIn "R-" z || pyIn "RES" z) = false →
        (pyIn "C-" z || pyIn "COM" z) = false →
        (pyIn "I-" z || pyIn "IND" z) = true → classify_zoning z = "Industrial")
    ∧ (∀ z : String, (pyIn "R-" z || pyIn "RES" z) = false →
        (pyIn "C-" z || pyIn "COM" z) = false →
        (pyIn "I-" z || pyIn "IND" z) = false →
        (pyIn "AG" z || pyIn "AGR" z) = true → classify_zoning z = "Agricultural")
    ∧ (∀ z : String, (pyIn "R-" z || pyIn "RES" z) = false →
        (pyIn "C-" z || pyIn "COM" z) = false →
        (pyIn "I-" z || pyIn "IND" z) = false →
        (pyIn "AG" z || pyIn "AGR" z) = false → classify_zoning z = "Mixed Use")
    ∧ determine_land_use [("ZoneDes", .vStr "R-3")] = .ok "Residential"
    ∧ determine_land_use [("ZoneDes", .vStr "C-1")] = .ok "Commercial"
    ∧ determine_land_use [("ZoneDes", .vStr "I-2")] = .ok "Industrial"
    ∧ determine_land_use [("ZoneDes", .vStr "AG-1")] = .ok "Agricultural"
    ∧ determine_land_use [("ZoneDes", .vStr "MU-1")] = .ok "Mixed Use" := by
  refine ⟨?_, ?_, ?_, ?_, ?_, ?_, ?_, rfl, rfl, rfl, rfl, rfl⟩
  · intro props s h hs
    simp only [determine_land_use, h]
    simp [truthy, hs]
  · intro props hfalse s h2
    simp only [determine_land_use, hfalse]
    simp [h2, pyUpper]
  · intro z h
    simp [classify_zoning, h]
  · intro z h1 h2
    simp [classify_zoning, h1, h2]
  · intro z h1 h2 h3
    simp [classify_zoning, h1, h2, h3]
  · intro z h1 h2 h3 h4
    simp [classify_zoning, h1, h2, h3, h4]
  · intro z h1 h2 h3 h4
    simp [classify_zoning, h1, h2, h3, h4]

/-- Claim C4 counterexample: a bag whose first candidate key PID is
present and non-null but bound to the empty string resolves the
identifier from the later candidate key instead, so the first present,
non-null value is not the value used. -/
theorem empty_pid_falls_through_to_second_candidate :
    (process_feature ⟨[("PID", .vStr ""), ("parcel_id", .vStr "X001")],
        some (.nonPolygon "Point")⟩).map ParcelData.parcel_id
      = some (.vStr "X001")
    ∧ List.lookup "PID" [("PID", Value.vStr ""), ("parcel_id", Value.vStr "X001")]
        = some (.vStr "")
    ∧ Value.vStr "X001" ≠ Value.vStr "" := by
  refine ⟨rfl, rfl, by decide⟩

/-- Claim C4 (amended): each canonical field is resolved by the first
present, truthy candidate value (Python or-chains), a later candidate
being consulted when the earlier one is absent, null, or falsy (empty
string, zero); the normalizer record carries exactly these
resolutions. -/
theorem field_resolution_first_truthy :
    (∀ props : Bag,
        pyOr (pyGetN props "PID") (pyGetN props "parcel_id")
          = firstTruthy props ["PID", "parcel_id"])
    ∧ (∀ props : Bag,
        pyOr (pyGetN props "Mailing_Address") (pyGetN props "address")
          = firstTruthy props ["Mailing_Address", "address"])
    ∧ (∀ props : Bag,
        pyOr (pyGetN props "Total_Acreage") (pyGetN props "acres")
          = firstTruthy props ["Total_Acreage", "acres"])
    ∧ (∀ props : Bag,
        pyOr (pyGetN props "ZoneDes") (pyGetN props "zoning")
          = firstTruthy props ["ZoneDes", "zoning"])
    ∧ (∀ (f : Feature) (pd : ParcelData), process_feature f = some pd →
        pd.parcel_id = firstTruthy f.properties ["PID", "parcel_id"]
        ∧ pd.address = firstTruthy f.properties ["Mailing_Address", "address"]
        ∧ pd.acres = parse_acres (firstTruthy f.properties ["Total_Acreage", "acres"])
        ∧ pd.zoning_code = firstTruthy f.properties ["ZoneDes", "zoning"]) := by
  refine ⟨fun props => rfl, fun props => rfl, fun props => rfl, fun props => rfl, ?_⟩
  intro f pd h
  obtain ⟨props, geo⟩ := f
  cases geo with
  | none => simp [process_feature] at h
  | some g =>
    cases hc : combine_owner_names props with
    | error e => simp [process_feature, hc] at h
    | ok owner =>
      cases hl : determine_land_use props with
      | error e => simp [process_feature, hc, hl] at h
      | ok lu =>
        simp only [process_feature, hc, hl] at h
        split at h
        · rw [Option.some.injEq] at h
          subst h
          exact ⟨rfl, rfl, rfl, rfl⟩
        · cases h

/-- Claim C10: a property bag binding Owner_FirstName or Owner_LastName to
null makes the owner-name combination raise; the per-feature handler then
drops the feature (even with valid parcel identifier and geometry), so it
contributes nothing to the processed batch; and the combination succeeds
on every bag in which both keys are absent or bound to strings. -/
theorem null_owner_name_drops_feature (props : Bag) :
    ((List.lookup "Owner_FirstName" props = some Value.vNull
        ∨ List.lookup "Owner_LastName" props = some Value.vNull) →
      combine_owner_names props = .error ()
      ∧ (∀ g : Geom, process_feature ⟨props, some g⟩ = none)
      ∧ (∀ (fs1 fs2 : List Feature) (g : Geom),
          process_parcel_data (some (fs1 ++ ⟨props, some g⟩ :: fs2))
            = process_parcel_data (some (fs1 ++ fs2))))
    ∧ ((List.lookup "Owner_FirstName" props = none
          ∨ ∃ s, List.lookup "Owner_FirstName" props = some (.vStr s)) →
        (List.lookup "Owner_LastName" props = none
          ∨ ∃ s, List.lookup "Owner_LastName" props = some (.vStr s)) →
        ∃ s, combine_owner_names props = .ok s) := by
  constructor
  · intro h
    have hcomb : combine_owner_names props = .error () := by
      rcases h with h | h
      · have h1 : pyGet props "Owner_FirstName" (.vStr "") = .vNull := by
          simp [pyGet, h]
        simp [combine_owner_names, h1, pyStrip]
      · have h2 : pyGet props "Owner_LastName" (.vStr "") = .vNull := by
          simp [pyGet, h]
        unfold combine_owner_names
        cases hv : pyStrip (pyGet props "Owner_FirstName" (.vStr "")) with
        | error e => cases e; rfl
        | ok fn => simp [h2, pyStrip]
    have hdrop : ∀ g : Geom, process_feature ⟨props, some g⟩ = none := by
      intro g
      simp [process_feature, hcomb]
    refine ⟨hcomb, hdrop, ?_⟩
    intro fs1 fs2 g
    simp [process_parcel_data, List.filterMap_append, List.filterMap_cons, hdrop g]
  · intro h1 h2
    have e1 : ∃ s1, pyStrip (pyGet props "Owner_FirstName" (.vStr "")) = .ok s1 := by
      rcases h1 with h | ⟨s, h⟩
      · exact ⟨trimStr "", by simp [pyGet, h, pyStrip]⟩
      · exact ⟨trimStr s, by simp [pyGet, h, pyStrip]⟩
    have e2 : ∃ s2, pyStrip (pyGet props "Owner_LastName" (.vStr "")) = .ok s2 := by
      rcases h2 with h | ⟨s, h⟩
      · exact ⟨trimStr "", by simp [pyGet, h, pyStrip]⟩
      · exact ⟨trimStr s, by simp [pyGet, h, pyStrip]⟩
    obtain ⟨s1, e1⟩ := e1
    obtain ⟨s2, e2⟩ := e2
    unfold combine_owner_names
    rw [e1, e2]
    dsimp only
    split_ifs <;> exact ⟨_, rfl⟩

/-- Claim C1: with minimum acreage five and the vacant-only flag both set,
the generated clause is the text of an acreage comparison AND-joined with
the unparenthesized vacant disjunction, and under the SQL precedence of
AND over OR a one-acre vacant row is returned even though it violates the
acreage condition — the filter is not the conjunction the claim states. -/
theorem vacant_or_escapes_the_conjunction :
    where_conditions minVacantCriteria
      = [.atom (.acresGe 5), .orFrag .ownerIsNull .ownerEmpty]
    ∧ search_parcels minVacantCriteria [vacantRow] = [vacantRow]
    ∧ vacantRow.acres = some 1
    ∧ ¬ ((5 : ℚ) ≤ 1) := by
  refine ⟨?_, ?_, rfl, by norm_num⟩
  · simp [minVacantCriteria, where_conditions, min_frag, max_frag, zoning_frag,
      vacant_frag, road_frag, slope_frag]
  · simp [search_parcels, minVacantCriteria, where_conditions, min_frag, max_frag,
      zoning_frag, vacant_frag, road_frag, slope_frag, evalWhere, orGroups, evalAtom,
      vacantRow]

/-- Claim C2: ingesting the polygon feature with the vacant-land property
bag (PID P001, ACRES 5.2, ZONING R-3, ADDRESS 123 Main St) stores a parcel
whose zoning code is null, whose land use is Mixed Use and whose acreage
is null — the normalizer consults ZoneDes/zoning and Total_Acreage/acres,
not the vacant-land keys — so a subsequent search for zoning type R-3
returns nothing rather than that parcel. -/
theorem vacant_layer_end_to_end_fails :
    process_feature ⟨vacantLayerBag, some vacantLayerGeom⟩ = some vacantLayerParcel
    ∧ vacantLayerParcel.zoning_code = .vNull
    ∧ vacantLayerParcel.land_use = "Mixed Use"
    ∧ vacantLayerParcel.acres = none
    ∧ search_parcels zoningR3Criteria (insert_parcel_data 0 vacantLayerParcel []) = [] := by
  refine ⟨rfl, rfl, rfl, rfl, ?_⟩
  simp [search_parcels, insert_parcel_data, mkRecord, vacantLayerParcel, zoningR3Criteria,
    where_conditions, min_frag, max_frag, zoning_frag, vacant_frag, road_frag, slope_frag,
    evalWhere, orGroups, evalAtom]

/-- Claim C5: every search result is ordered by acreage descending (nulls
first, the DESC order of the store) and capped at 100 rows; with zero
criteria keys set the result is exactly the sorted table truncated to 100
rows, hence all stored parcels whenever at most 100 exist. -/
theorem search_parcels_order_and_cap (c : Criteria) (tbl : List ParcelRecord) :
    List.Pairwise (fun a b => acres_desc a b = true) (search_parcels c tbl)
    ∧ (search_parcels c tbl).length ≤ 100
    ∧ search_parcels noCriteria tbl = (tbl.mergeSort acres_desc).take 100
    ∧ (tbl.length ≤ 100 → (search_parcels noCriteria tbl).Perm tbl) := by
  have hfilter : ∀ tb : List ParcelRecord,
      tb.filter (fun r => evalWhere (where_conditions noCriteria) r) = tb := by
    intro tb
    simp [noCriteria, where_conditions, min_frag, max_frag, zoning_frag, vacant_frag,
      road_frag, slope_frag, evalWhere]
  refine ⟨?_, ?_, ?_, ?_⟩
  · exact List.Pairwise.sublist (List.take_sublist _ _)
      (List.sorted_mergeSort acres_desc_trans acres_desc_total _)
  · unfold search_parcels
    rw [List.length_take]
    exact min_le_left _ _
  · unfold search_parcels
    rw [hfilter]
  · intro hlen
    unfold search_parcels
    rw [hfilter, List.take_of_length_le (by simpa using hlen)]
    exact List.mergeSort_perm tbl _

/-- Claim C6 counterexample: with minimum one acre, maximum two acres
(one is at most two) and vacant-only also set, a vacant fifty-acre row is
returned, violating the claimed bound of two acres. -/
theorem range_with_vacant_returns_out_of_range_row :
    search_parcels rangeVacantCriteria [vacantRow50] = [vacantRow50]
    ∧ rangeVacantCriteria.min_acres = some 1
    ∧ rangeVacantCriteria.max_acres = some 2
    ∧ (1 : ℚ) ≤ 2
    ∧ vacantRow50.acres = some 50
    ∧ ¬ ((50 : ℚ) ≤ 2) := by
  refine ⟨?_, rfl, rfl, by norm_num, rfl, by norm_num⟩
  simp [search_parcels, rangeVacantCriteria, where_conditions, min_frag, max_frag,
    zoning_frag, vacant_frag, road_frag, slope_frag, evalWhere, orGroups, evalAtom,
    vacantRow50, vacantRow]

/-- Claim C6 (amended): when minimum and maximum acreage are set to
nonzero values X at most Y and the vacant-only key is not set, every
returned row has non-null acres within the bound — the min bound when X
is nonzero and the max bound when Y is nonzero (a zero bound is the
documented treated-as-unspecified quirk, and a set vacant-only flag
breaks the conjunction, per C1). -/
theorem search_min_max_bounds (X Y : ℚ) (c : Criteria) (tbl : List ParcelRecord)
    (r : ParcelRecord) (hmin : c.min_acres = some X) (hmax : c.max_acres = some Y)
    (hXY : X ≤ Y) (hvac : c.vacant_only = false) (hr : r ∈ search_parcels c tbl) :
    (X ≠ 0 → ∃ a, r.acres = some a ∧ X ≤ a)
    ∧ (Y ≠ 0 → ∃ a, r.acres = some a ∧ a ≤ Y) := by
  obtain ⟨-, hw⟩ := mem_search_parcels hr
  constructor
  · intro hX
    have hmem : Fragment.atom (.acresGe X) ∈ where_conditions c := by
      simp [where_conditions, min_frag, hmin, hX]
    exact evalAtom_acresGe X r
      (evalWhere_atoms_true _ _ (where_conditions_atoms c hvac) hw _ hmem)
  · intro hY
    have hmem : Fragment.atom (.acresLe Y) ∈ where_conditions c := by
      simp [where_conditions, max_frag, hmax, hY]
    exact evalAtom_acresLe Y r
      (evalWhere_atoms_true _ _ (where_conditions_atoms c hvac) hw _ hmem)

/-- Claim C6 witness: the bounds hold on a concrete search returning a
two-acre row for the one-to-two acre criteria. -/
theorem search_min_max_bounds_witness :
    ((1 : ℚ) ≠ 0 → ∃ a, midRow.acres = some a ∧ 1 ≤ a)
    ∧ ((2 : ℚ) ≠ 0 → ∃ a, midRow.acres = some a ∧ a ≤ 2) := by
  refine search_min_max_bounds 1 2 rangeOnlyCriteria [midRow] midRow rfl rfl
    (by norm_num) rfl ?_
  simp [search_parcels, rangeOnlyCriteria, where_conditions, min_frag, max_frag,
    zoning_frag, vacant_frag, road_frag, slope_frag, evalWhere, orGroups, evalAtom,
    midRow, vacantRow]

/-- Claim C7: upserting twice with the same parcel identifier and
different attributes leaves the table with its prior rows plus exactly one
row for that identifier; that row carries every mutable field of the
second payload, keeps the first insertion time as created_at, and has
updated_at bumped to the later time; no row is removed. -/
theorem upsert_twice_overwrites (t1 t2 : ℕ) (d1 d2 : ParcelData)
    (tbl : List ParcelRecord) (hpid : d1.parcel_id = d2.parcel_id)
    (hfresh : ∀ r ∈ tbl, r.parcel_id ≠ d2.parcel_id) (ht : t1 < t2) :
    insert_parcel_data t2 d2 (insert_parcel_data t1 d1 tbl)
      = tbl ++ [{ mkRecord t1 d2 with updated_at := t2 }]
    ∧ (insert_parcel_data t2 d2 (insert_parcel_data t1 d1 tbl)).filter
        (fun r => r.parcel_id = d2.parcel_id)
      = [{ mkRecord t1 d2 with updated_at := t2 }]
    ∧ (insert_parcel_data t2 d2 (insert_parcel_data t1 d1 tbl)).length = tbl.length + 1
    ∧ (∀ r ∈ tbl, r ∈ insert_parcel_data t2 d2 (insert_parcel_data t1 d1 tbl))
    ∧ ({ mkRecord t1 d2 with updated_at := t2 } : ParcelRecord).created_at
        < ({ mkRecord t1 d2 with updated_at := t2 } : ParcelRecord).updated_at := by
  have hany1 : tbl.any (fun r => r.parcel_id = d1.parcel_id) = false := by
    rw [List.any_eq_false]
    intro r hr
    simp only [decide_eq_true_eq, hpid]
    exact hfresh r hr
  have h1 : insert_parcel_data t1 d1 tbl = tbl ++ [mkRecord t1 d1] := by
    simp [insert_parcel_data, hany1]
  have hu : updateRecord t2 d2 (mkRecord t1 d1) = { mkRecord t1 d2 with updated_at := t2 } := by
    simp [updateRecord, mkRecord, hpid]
  have hany2 : (tbl ++ [mkRecord t1 d1]).any (fun r => r.parcel_id = d2.parcel_id) = true := by
    rw [List.any_eq_true]
    exact ⟨mkRecord t1 d1, by simp, by simp [mkRecord, hpid]⟩
  have h2 : insert_parcel_data t2 d2 (tbl ++ [mkRecord t1 d1])
      = tbl ++ [{ mkRecord t1 d2 with updated_at := t2 }] := by
    unfold insert_parcel_data
    rw [hany2]
    simp only [if_true, List.map_append, List.map_cons, List.map_nil]
    congr 1
    · calc tbl.map (fun r => if r.parcel_id = d2.parcel_id then updateRecord t2 d2 r else r)
          = tbl.map id := List.map_congr_left (fun r hr => by simp [hfresh r hr])
        _ = tbl := List.map_id tbl
    · rw [if_pos (show (mkRecord t1 d1).parcel_id = d2.parcel_id by simp [mkRecord, hpid]), hu]
  rw [h1, h2]
  refine ⟨rfl, ?_, by simp, fun r hr => by simp [hr], by simp [mkRecord]; exact ht⟩
  rw [List.filter_append]
  have hf0 : tbl.filter (fun r => r.parcel_id = d2.parcel_id) = [] := by
    rw [List.filter_eq_nil_iff]
    intro r hr
    simp only [decide_eq_true_eq]
    exact hfresh r hr
  rw [hf0]
  simp [mkRecord]

/-- Claim C7 witness: the double upsert evaluated on the two concrete
payloads over the empty table. -/
theorem upsert_twice_overwrites_witness :
    insert_parcel_data 1 secondPayload (insert_parcel_data 0 firstPayload [])
      = [] ++ [{ mkRecord 0 secondPayload with updated_at := 1 }] :=
  (upsert_twice_overwrites 0 1 firstPayload secondPayload [] rfl
    (by simp) (by norm_num)).1

/-- Claim C8: the import runs its three passes strictly in sequence over
the store and always completes with success (every failure below it is
caught); a failed fetch for any one layer behaves exactly like a fetched
empty feature list, the other passes proceeding unchanged; and a feature
whose transform raises is dropped from its batch without affecting the
features around it. -/
theorem import_all_layers_and_errors (t : ℕ) (pf vf zf : Option (Option (List Feature)))
    (db : DB) :
    (import_all_data t pf vf zf db).1 = true
    ∧ import_all_data t pf vf zf db
        = (true, zoning_pass zf (vacant_pass t vf (parcel_pass t pf db)))
    ∧ import_all_data t none vf zf db = import_all_data t (some (some [])) vf zf db
    ∧ import_all_data t pf none zf db = import_all_data t pf (some (some [])) zf db
    ∧ import_all_data t pf vf none db = import_all_data t pf vf (some (some [])) db
    ∧ (∀ (fs1 fs2 : List Feature) (f : Feature), process_feature f = none →
        process_parcel_data (some (fs1 ++ f :: fs2)) = process_parcel_data (some (fs1 ++ fs2))) := by
  refine ⟨rfl, rfl, rfl, rfl, rfl, ?_⟩
  intro fs1 fs2 f h
  simp [process_parcel_data, List.filterMap_append, List.filterMap_cons, h]
